import Mathlib

/-!
Verification development for the EduAI backend.

This file gives a shallow embedding, in Lean 4, of the parts of the EduAI
Python backend that the specification talks about:

* `app/core/security.py` — password hashing and JWT issuance/verification;
* `app/api/auth.py` — the signup / login / change-password handlers;
* `app/services/gemini_service.py` — answer evaluation dispatch;
* `main.py` (the "ultra simple" variant) — exam generation with its
  hard-coded fallback, MCQ grading, written-exam grading with its
  length-based fallback, and the in-memory `ExamStorage`.

Python dictionaries keyed by strings are modelled as association lists with
Python's dict semantics (unique keys, last write wins); external services
(the Gemini LLM, Python's `json.loads`, bcrypt's key-derivation function)
are modelled as explicit function parameters, so every theorem quantifies
over their behaviour.  Machine floats in the Python code only ever hold
small decimal fractions here, so they are modelled as rationals; Python's
2-decimal `round` (half-to-even) is modelled exactly on rationals.
-/

namespace EduAI

/-! ## Python dictionaries as association lists -/

/-- Lookup in a string-keyed dictionary (first entry with the key). -/
def dfind {V : Type} : List (String × V) → String → Option V
  | [], _ => none
  | e :: rest, k => if e.1 = k then some e.2 else dfind rest k

/-- `d[k] = v` on a Python dict: overwrite the existing entry for `k`,
or append a fresh one. -/
def dinsert {V : Type} : List (String × V) → String → V → List (String × V)
  | [], k, v => [(k, v)]
  | e :: rest, k, v => if e.1 = k then (k, v) :: rest else e :: dinsert rest k v

/-- `d.update(u)` on Python dicts: write every entry of `u` into `d`. -/
def dupdate {V : Type} (d u : List (String × V)) : List (String × V) :=
  u.foldl (fun acc e => dinsert acc e.1 e.2) d

/-! ## Python's `round(x, 2)` on rationals -/

/-- Floor of a rational, computed on its normalised representation. -/
def ratFloor (q : ℚ) : ℤ := Int.fdiv q.num q.den

/-- Round to the nearest integer, ties to even (Python's `round`). -/
def roundHalfEven (q : ℚ) : ℤ :=
  let f := ratFloor q
  let r := q - (f : ℚ)
  if r < 1/2 then f
  else if 1/2 < r then f + 1
  else if f % 2 = 0 then f else f + 1

/-- Python's `round(x, 2)`. -/
def pyRound2 (q : ℚ) : ℚ := (roundHalfEven (q * 100) : ℚ) / 100

/-! ## String helpers from the Python code -/

/-- `s.find(c)` on Python strings: index of the first occurrence, `-1` if none. -/
def pyFind (cs : List Char) (c : Char) : Int :=
  match cs.findIdx? (· = c) with
  | some i => (i : Int)
  | none => -1

/-- `s.rfind(c)` on Python strings: index of the last occurrence, `-1` if none. -/
def pyRfind (cs : List Char) (c : Char) : Int :=
  match cs.reverse.findIdx? (· = c) with
  | some i => (cs.length : Int) - 1 - (i : Int)
  | none => -1

/-- Python's `c in s` membership test on a string. -/
def pyInStr (c : Char) (s : String) : Bool := s.data.contains c

/-- Python's `s.upper()` (ASCII case mapping, which is all the code
compares). -/
def pyUpper (s : String) : String := String.mk (s.data.map Char.toUpper)

/-- Python's `s.strip()`: drop whitespace from both ends. -/
def pyStrip (s : String) : String :=
  String.mk (((s.data.dropWhile Char.isWhitespace).reverse.dropWhile
    Char.isWhitespace).reverse)

/-- The JSON-extraction idiom used throughout `main.py`:

    start_idx = resp.find('{'); end_idx = resp.rfind('}') + 1
    if start_idx != -1 and end_idx != -1: json_str = resp[start_idx:end_idx]
    else: raise ValueError("No JSON found in AI response")

(Note `end_idx` can never be `-1`, being `rfind + 1`; when `}` is absent the
slice is empty and the subsequent `json.loads` fails.) -/
def extractJson (s : String) : Option String :=
  let cs := s.data
  let start := pyFind cs '{'
  let stop := pyRfind cs '}' + 1
  if start ≠ -1 ∧ stop ≠ -1 then
    some (String.mk ((cs.take stop.toNat).drop start.toNat))
  else none

/-! ## `app/core/security.py` — password hashing

`passlib`'s bcrypt context is external code: it draws a random salt,
derives a digest with bcrypt's KDF, and stores both in the hash string;
verification re-derives the digest from the stored salt.  We model the
hash string as a (salt, digest) record and keep the key-derivation
function abstract: every statement below quantifies over it. -/

/-- A bcrypt hash string: the salt and the derived digest it records. -/
structure BcryptHash where
  salt : Nat
  digest : String
deriving DecidableEq, Repr

/-- `pwd_context.hash(password)`: draw a salt (passed in explicitly, since
it is randomness external to the code) and derive the digest. -/
def hash_passwordK (kdf : Nat → String → String) (salt : Nat) (password : String) :
    BcryptHash :=
  ⟨salt, kdf salt password⟩

/-- `pwd_context.verify(plain, hashed)`: re-derive from the stored salt and
compare digests. -/
def verify_passwordK (kdf : Nat → String → String) (password : String) (h : BcryptHash) :
    Bool :=
  kdf h.salt password == h.digest

/-- A concrete stand-in for bcrypt's key-derivation function, used where the
handlers below need an executable instance; nothing proved about the
handlers depends on its choice. -/
def bcryptKdf (salt : Nat) (password : String) : String :=
  toString salt ++ "$" ++ password

/-- `SecurityUtils.hash_password` with the concrete KDF. -/
def hash_password (salt : Nat) (password : String) : BcryptHash :=
  hash_passwordK bcryptKdf salt password

/-- `SecurityUtils.verify_password` with the concrete KDF. -/
def verify_password (password : String) (h : BcryptHash) : Bool :=
  verify_passwordK bcryptKdf password h

/-! ## `app/core/security.py` — JWT issuance and verification

A token is modelled as its decoded claims plus the secret it was signed
with; `jose.jwt.decode` succeeds exactly when the verifying secret matches
(this abstracts HMAC signature validity) and, as python-jose does by
default, additionally rejects a token whose `exp` claim is already in the
past.  Clock readings (`datetime.utcnow`) are a `Nat` parameter `now`
(seconds; the model assumes a UTC system clock, under which
`datetime.fromtimestamp` inverts the stored timestamp). -/

/-- The JWT claims the code reads: `sub`, `type` and `exp`. -/
structure JwtPayload where
  sub : Option String
  type : Option String
  exp : Option Nat
deriving DecidableEq, Repr

/-- A signed token: its payload and the secret whose HMAC it carries. -/
structure SignedToken where
  payload : JwtPayload
  signedWith : String
deriving DecidableEq, Repr

/-- HTTP error as raised via `HTTPException(status_code, detail)`. -/
structure HErr where
  status : Nat
  detail : String
deriving DecidableEq, Repr

/-- `jose.jwt.decode(token, secret, algorithms=[...])`: signature check,
then the library's own default expiry check (`ExpiredSignatureError` when
`exp < now`; a missing `exp` is not checked by the library). Both errors
are subclasses of `JWTError`. -/
def joseDecode (secret : String) (now : Nat) (tok : SignedToken) :
    Except String JwtPayload :=
  if tok.signedWith = secret then
    match tok.payload.exp with
    | some e => if e < now then Except.error "Signature has expired." else Except.ok tok.payload
    | none => Except.ok tok.payload
  else Except.error "Signature verification failed."

/-- `SecurityUtils.verify_token(token, token_type)`.  The `HTTPException`s
raised inside the `try` block are not `JWTError`s, so they propagate past
the `except JWTError` clause, as in the source. -/
def verify_token (secret : String) (now : Nat) (token_type : String)
    (tok : SignedToken) : Except HErr JwtPayload :=
  match joseDecode secret now tok with
  | Except.error _ => Except.error ⟨401, "Could not validate credentials"⟩
  | Except.ok payload =>
    if payload.type = some token_type then
      match payload.exp with
      | none => Except.error ⟨401, "Token has expired"⟩
      | some e =>
        if now > e then Except.error ⟨401, "Token has expired"⟩
        else Except.ok payload
    else Except.error ⟨401, "Invalid token type"⟩

/-- `SecurityUtils.create_access_token({"sub": sub})` with the default
expiry of `ACCESS_TOKEN_EXPIRE_MINUTES` minutes. -/
def create_access_token (secret : String) (now : Nat) (expireMinutes : Nat)
    (sub : String) : SignedToken :=
  ⟨⟨some sub, some "access", some (now + expireMinutes * 60)⟩, secret⟩

/-- `SecurityUtils.create_refresh_token({"sub": sub})` with the default
expiry of `REFRESH_TOKEN_EXPIRE_DAYS` days. -/
def create_refresh_token (secret : String) (now : Nat) (expireDays : Nat)
    (sub : String) : SignedToken :=
  ⟨⟨some sub, some "refresh", some (now + expireDays * 86400)⟩, secret⟩

/-! ## `app/api/auth.py` — login, change-password and signup handlers

The hosted database is external; its `users` table is modelled as the list
of user rows the handlers' CRUD calls query (`get_user_by_email`,
`get_user_by_username`, `get_user_by_id` return the first match of the
corresponding `eq` query). -/

/-- A row of the `users` table, with the fields the handlers read. -/
structure DbUser where
  id : String
  email : String
  username : String
  hashed_password : BcryptHash
  is_active : Bool
deriving DecidableEq, Repr

/-- `user_crud.get_user_by_email`. -/
def get_user_by_email (db : List DbUser) (email : String) : Option DbUser :=
  db.find? (fun u => u.email = email)

/-- `user_crud.get_user_by_username`. -/
def get_user_by_username (db : List DbUser) (username : String) : Option DbUser :=
  db.find? (fun u => u.username = username)

/-- `user_crud.get_user_by_id`. -/
def get_user_by_id (db : List DbUser) (uid : String) : Option DbUser :=
  db.find? (fun u => u.id = uid)

/-- The pair of tokens a successful login returns. -/
structure LoginTokens where
  access_token : SignedToken
  refresh_token : SignedToken
deriving DecidableEq, Repr

/-- The `login` handler.  `secret now expireMinutes expireDays` stand for
the settings and clock; `update_last_login` is a fire-and-forget external
DB write and is not part of the returned value. -/
def login (db : List DbUser) (username_or_email password : String)
    (secret : String) (now expireMinutes expireDays : Nat) :
    Except HErr LoginTokens :=
  let user :=
    if pyInStr '@' username_or_email then get_user_by_email db username_or_email
    else get_user_by_username db username_or_email
  match user with
  | none => Except.error ⟨401, "Incorrect username/email or password"⟩
  | some u =>
    if verify_password password u.hashed_password then
      if u.is_active then
        Except.ok ⟨create_access_token secret now expireMinutes u.id,
                   create_refresh_token secret now expireDays u.id⟩
      else Except.error ⟨401, "Account is deactivated"⟩
    else Except.error ⟨401, "Incorrect username/email or password"⟩

/-- `user_crud.update_user(uid, {"hashed_password": h})`: rewrite the
stored hash of the matching rows. -/
def update_user_password (db : List DbUser) (uid : String) (h : BcryptHash) :
    List DbUser :=
  db.map (fun u => if u.id = uid then { u with hashed_password := h } else u)

/-- The `change_password` handler: returns the HTTP outcome together with
the users table after the handler ran.  `newSalt` is the salt bcrypt draws
when hashing the new password. -/
def change_password (db : List DbUser) (uid : String)
    (current_password new_password : String) (newSalt : Nat) :
    Except HErr Unit × List DbUser :=
  match get_user_by_id db uid with
  | none => (Except.error ⟨404, "User not found"⟩, db)
  | some u =>
    if verify_password current_password u.hashed_password then
      (Except.ok (), update_user_password db uid (hash_password newSalt new_password))
    else (Except.error ⟨400, "Current password is incorrect"⟩, db)

/-- The `signup` handler, abstracted over the outcome of the external
`create_user` call: duplicate checks first, then the `try`/`except` whose
500 detail is the fixed string `"Failed to create user account"`
(the caught exception's message is discarded). -/
def signup (emailTaken usernameTaken : Bool) (createResult : Except String DbUser) :
    Except HErr DbUser :=
  if emailTaken then Except.error ⟨400, "Email already registered"⟩
  else if usernameTaken then Except.error ⟨400, "Username already taken"⟩
  else
    match createResult with
    | Except.ok u => Except.ok u
    | Except.error _ => Except.error ⟨500, "Failed to create user account"⟩

/-! ## Per-handler 500 wrappers (`app/api/evaluation.py`, `main.py`)

These model the `except Exception as e: raise HTTPException(500, f"...:
{str(e)}")` clauses of the handlers named in the spec. -/

/-- `evaluate_single_answer`'s 500: `f"Failed to evaluate answer: {str(e)}"`. -/
def evalAnswer500 (msg : String) : HErr :=
  ⟨500, "Failed to evaluate answer: " ++ msg⟩

/-- `generate_exam`'s 500: `f"Exam generation failed: {str(e)}"`. -/
def examGen500 (msg : String) : HErr :=
  ⟨500, "Exam generation failed: " ++ msg⟩

/-- The evaluation outcome record the service returns. -/
structure EvalOutcome where
  score : ℚ
  is_correct : Bool
  feedback : String
  strengths : List String
  improvements : List String
  partial_credit_reason : String
deriving DecidableEq, Repr

/-- The `evaluate_single_answer` handler around the evaluation service:
404 when the question row is missing, otherwise the service result or the
wrapped 500. -/
def evaluate_single_answer (questionFound : Bool)
    (svcResult : Except String EvalOutcome) : Except HErr EvalOutcome :=
  if questionFound then
    match svcResult with
    | Except.ok r => Except.ok r
    | Except.error msg => Except.error (evalAnswer500 msg)
  else Except.error ⟨404, "Question not found"⟩

/-! ## `app/services/gemini_service.py` — answer evaluation dispatch -/

/-- `QuestionType` from `app/schemas/question.py`. -/
inductive QuestionType where
  | mcq
  | short
  | long
deriving DecidableEq, Repr

/-- The `question_type.value` strings. -/
def QuestionType.val : QuestionType → String
  | .mcq => "mcq"
  | .short => "short"
  | .long => "long"

/-- `GeminiService._evaluate_mcq_answer`: local, case-insensitive
comparison with no external call. -/
def evaluate_mcq_answer (correct_answer user_answer : String) : EvalOutcome :=
  let is_correct := pyUpper correct_answer == pyUpper user_answer
  { score := if is_correct then 1 else 0
    is_correct := is_correct
    feedback :=
      if is_correct then "Correct!"
      else "Incorrect. The correct answer is " ++ correct_answer ++ "."
    strengths := if is_correct then ["Selected the correct option"] else []
    improvements := if is_correct then [] else ["Review the topic and try again"]
    partial_credit_reason := "" }

/-- `GeminiService._build_evaluation_prompt`.  The constant JSON-format
and criteria boilerplate of the f-string is abbreviated; what matters is
that the prompt is a single string embedding the inputs. -/
def build_evaluation_prompt (question correct_answer user_answer : String)
    (question_type : QuestionType) : String :=
  "Evaluate the following student answer for a " ++ question_type.val
    ++ " question: Question: " ++ question
    ++ " Model Answer: " ++ correct_answer
    ++ " Student Answer: " ++ user_answer
    ++ " Please provide evaluation in JSON format."

/-- `GeminiService.evaluate_answer`, abstracted over the external LLM call
(`_call_gemini_async`) and over `_parse_evaluation_response`'s use of the
stdlib JSON parser.  MCQ questions short-circuit to the local comparison;
everything else is one prompt-building call to the LLM whose failures are
re-raised as `f"Answer evaluation failed: {str(e)}"`. -/
def evaluate_answer (llm : String → Except String String)
    (parseEval : String → Except String EvalOutcome)
    (question_type : QuestionType) (question correct_answer user_answer : String) :
    Except String EvalOutcome :=
  match question_type with
  | .mcq => Except.ok (evaluate_mcq_answer correct_answer user_answer)
  | _ =>
    match llm (build_evaluation_prompt question correct_answer user_answer question_type) with
    | Except.error e => Except.error ("Answer evaluation failed: " ++ e)
    | Except.ok resp =>
      match parseEval resp with
      | Except.error e => Except.error ("Answer evaluation failed: " ++ e)
      | Except.ok ev => Except.ok ev

/-! ## `main.py` (ultra-simple variant) — exam generation -/

/-- An MCQ option dict, as produced/consumed by `main.py`. -/
structure MCQOptionR where
  id : String
  text : String
  is_correct : Bool
deriving DecidableEq, Repr

/-- A question dict of the generated exam.  MCQ questions use `options`,
`correct_answer` and `explanation`; written questions use `max_points` and
`sample_answer` (absent fields are `none`, matching `.get` with a default
in the source). -/
structure GenQ where
  id : String
  question : String
  options : List MCQOptionR := []
  correct_answer : Option String := none
  explanation : Option String := none
  max_points : Option Int := none
  sample_answer : Option String := none
deriving DecidableEq, Repr

/-- `ExamGenerateRequest`; `num_questions` is a plain Python `int`
(the schema puts no bound on it). -/
structure ExamGenRequest where
  user_id : String
  chat_id : Option String := none
  title : String
  subject : String
  exam_type : String
  num_questions : Int := 10
  difficulty : String := "medium"
  topic : Option String := none
deriving DecidableEq, Repr

/-- The hard-coded MCQ fallback questions of `generate_exam`
(`for i in range(request.num_questions)`; a non-positive count yields the
empty range). -/
def mcqPlaceholder (subject : String) (n : Int) : List GenQ :=
  (List.range n.toNat).map (fun i =>
    { id := "q" ++ toString (i + 1)
      question := "Sample " ++ subject ++ " question " ++ toString (i + 1) ++ "?"
      options :=
        [⟨"A", "Option A", i == 0⟩, ⟨"B", "Option B", i == 1⟩,
         ⟨"C", "Option C", i == 2⟩, ⟨"D", "Option D", i == 3⟩]
      correct_answer := some (String.mk [Char.ofNat (65 + i % 4)])
      explanation := some ("Explanation for question " ++ toString (i + 1)) })

/-- The hard-coded written fallback questions of `generate_exam`
(`max_points = 100 // request.num_questions`, evaluated only when the
range is non-empty). -/
def writtenPlaceholder (subject : String) (n : Int) : List GenQ :=
  (List.range n.toNat).map (fun i =>
    { id := "q" ++ toString (i + 1)
      question := "Sample " ++ subject ++ " essay question " ++ toString (i + 1) ++ "?"
      max_points := some (100 / n)
      sample_answer := some ("Sample answer for question " ++ toString (i + 1)) })

/-- The fallback exam questions, by exam type. -/
def placeholderQuestions (req : ExamGenRequest) : List GenQ :=
  if req.exam_type = "mcq" then mcqPlaceholder req.subject req.num_questions
  else writtenPlaceholder req.subject req.num_questions

/-- The stored exam record (`exam_record` in `generate_exam`, after
`create_exam` added `exam_id`, `created_at` and `status`). -/
structure ExamRecord where
  user_id : String
  chat_id : Option String
  title : String
  subject : String
  exam_type : String
  questions : List GenQ
  user_answers : List (String × String)
  max_score : Int
  status : String
  exam_id : String
  created_at : String
deriving DecidableEq, Repr

/-- The in-memory store as `generate_exam` uses it, with typed exam
records; the dictionary-level bookkeeping of `ExamStorage` (including its
`user_exams` index) is modelled separately below. -/
structure GStore where
  exams : List (String × ExamRecord)
  user_exams : List (String × List String)
deriving DecidableEq, Repr

/-- Append an exam id to a user's list (creating the entry if absent),
as `ExamStorage.create_exam` does. -/
def gsAppend : List (String × List String) → String → String → List (String × List String)
  | [], u, eid => [(u, [eid])]
  | e :: rest, u, eid =>
    if e.1 = u then (e.1, e.2 ++ [eid]) :: rest else e :: gsAppend rest u eid

/-- `exam_storage.create_exam` specialised to typed records: stamp the
record and index it under its user (`newId` stands for the fresh
`uuid4`, `t` for `datetime.now().isoformat()`). -/
def gsCreateExam (s : GStore) (newId t : String) (r : ExamRecord) : GStore × String :=
  let r' := { r with exam_id := newId, created_at := t, status := "in_progress" }
  (⟨dinsert s.exams newId r', gsAppend s.user_exams r.user_id newId⟩, newId)

/-- `ExamGenerateResponse`. -/
structure ExamGenResponse where
  exam_id : String
  title : String
  subject : String
  exam_type : String
  questions : List GenQ
  total_questions : Nat
  max_score : Int
  success : Bool := true
deriving DecidableEq, Repr

/-- The exam-generation prompt (`f"""Generate {num_questions} ..."""`);
constant formatting boilerplate abbreviated. -/
def buildExamPrompt (req : ExamGenRequest) : String :=
  "Generate " ++ toString req.num_questions
    ++ (if req.exam_type = "mcq" then " multiple choice questions for "
        else " written/essay questions for ")
    ++ req.subject ++ ". Title: " ++ req.title ++ " Difficulty: " ++ req.difficulty
    ++ (match req.topic with | some tp => " Topic: " ++ tp | none => "")
    ++ " Format the response as JSON."

/-- `max_score` computation of `generate_exam`: question count for MCQ,
sum of `q.get("max_points", 10)` for written exams. -/
def genMaxScore (req : ExamGenRequest) (qs : List GenQ) : Int :=
  if req.exam_type = "mcq" then (qs.length : Int)
  else (qs.map (fun q => q.max_points.getD 10)).sum

/-- The question-list extraction step of `generate_exam`.  `ai` is
`ai_service.get_response` (which never raises: it catches internally and
returns an error string); `jsonLoads` is the stdlib `json.loads` applied
to the extracted slice — `Except.error` for invalid JSON, `ok none` for
valid JSON without a `questions` key (on which the handler then raises
`KeyError`, re-wrapped by the outer handler as a 500 embedding `str` of
the error, modelled up to quoting), and `ok (some qs)` when the questions
list is present.  Extraction or parse failures select the hard-coded
placeholder questions. -/
def genQuestionsE (ai : String → String)
    (jsonLoads : String → Except Unit (Option (List GenQ)))
    (req : ExamGenRequest) : Except HErr (List GenQ) :=
  match extractJson (ai (buildExamPrompt req)) with
  | none => Except.ok (placeholderQuestions req)
  | some s =>
    match jsonLoads s with
    | Except.error _ => Except.ok (placeholderQuestions req)
    | Except.ok none => Except.error (examGen500 "KeyError: questions")
    | Except.ok (some qs) => Except.ok qs

/-- The `generate_exam` handler of `main.py`.  The explicit 400 for a bad
`exam_type` is raised inside the `try`, so the outer `except Exception`
re-wraps it as a 500 whose detail embeds `str` of the `HTTPException`
(modelled up to Starlette's quoting of the rendered message). -/
def generate_exam (store : GStore) (newId t : String) (req : ExamGenRequest)
    (ai : String → String)
    (jsonLoads : String → Except Unit (Option (List GenQ))) :
    Except HErr (GStore × ExamGenResponse) :=
  if req.exam_type ≠ "mcq" ∧ req.exam_type ≠ "written" then
    Except.error (examGen500 "400: exam_type must be mcq or written")
  else
    match genQuestionsE ai jsonLoads req with
    | Except.error e => Except.error e
    | Except.ok qs =>
      Except.ok ((gsCreateExam store newId t
          { user_id := req.user_id, chat_id := req.chat_id, title := req.title
            subject := req.subject, exam_type := req.exam_type, questions := qs
            user_answers := [], max_score := genMaxScore req qs
            status := "in_progress", exam_id := "", created_at := "" }).1,
        { exam_id := newId, title := req.title, subject := req.subject
          exam_type := req.exam_type, questions := qs
          total_questions := qs.length, max_score := genMaxScore req qs
          success := true })

/-! ## `main.py` — MCQ grading -/

/-- An element of the submitted `answers` list; `grade_mcq_exam` and
`grade_written_exam` read exactly the keys `question_id` and `answer`. -/
structure AnsIn where
  question_id : String
  answer : String
deriving DecidableEq, Repr

/-- `{ans["question_id"]: ans["answer"] for ans in answers}`: a dict
comprehension, so a repeated question id keeps the last answer. -/
def buildAnswerMap (answers : List AnsIn) : List (String × String) :=
  answers.foldl (fun m a => dinsert m a.question_id a.answer) []

/-- An MCQ question as `grade_mcq_exam` reads it. -/
structure McqQ where
  id : String
  question : String
  correct_answer : String
  explanation : Option String := none
deriving DecidableEq, Repr

/-- A per-question grading result row. -/
structure QRes where
  question_id : String
  question : String
  user_answer : String
  correct_answer : String
  is_correct : Bool
  explanation : String
deriving DecidableEq, Repr

/-- Whether the submitted answer for `q` (default `""`) matches the stored
correct answer case-insensitively. -/
def mcqIsCorrect (amap : List (String × String)) (q : McqQ) : Bool :=
  pyUpper ((dfind amap q.id).getD "") == pyUpper q.correct_answer

/-- The loop body of `grade_mcq_exam`. -/
def mcqStep (amap : List (String × String)) (acc : Nat × List QRes) (q : McqQ) :
    Nat × List QRes :=
  let ua := (dfind amap q.id).getD ""
  let ic := mcqIsCorrect amap q
  (acc.1 + (if ic then 1 else 0),
   acc.2 ++ [⟨q.id, q.question, ua, q.correct_answer, ic, q.explanation.getD ""⟩])

/-- The grading summary `grade_mcq_exam` returns (`exam_type` is the
constant `"mcq"` and is omitted). -/
structure McqResults where
  score : Nat
  max_score : Nat
  percentage : ℚ
  question_results : List QRes
deriving DecidableEq, Repr

/-- `grade_mcq_exam`: count case-insensitive matches, then
`round((score / total) * 100 if total > 0 else 0, 2)`. -/
def grade_mcq_exam (questions : List McqQ) (answers : List AnsIn) : McqResults :=
  { score := (questions.foldl (mcqStep (buildAnswerMap answers)) (0, [])).1
    max_score := questions.length
    percentage :=
      pyRound2 (if 0 < questions.length then
        ((questions.foldl (mcqStep (buildAnswerMap answers)) (0, [])).1 : ℚ) /
          (questions.length : ℚ) * 100
      else 0)
    question_results := (questions.foldl (mcqStep (buildAnswerMap answers)) (0, [])).2 }

/-! ## `main.py` — written-exam grading -/

/-- A written question as `grade_written_exam` reads it (`max_points` and
`sample_answer` via `.get` with defaults). -/
structure WrittenQ where
  id : String
  question : String
  max_points : Option ℚ := none
  sample_answer : Option String := none
deriving DecidableEq, Repr

/-- The parsed AI grading JSON (`grading_data.get(...)` fields). -/
structure GradingJson where
  score : Option ℚ := none
  feedback : Option String := none
  strengths : Option String := none
  improvements : Option String := none
deriving DecidableEq, Repr

/-- The grading prompt (`f"""Grade this written answer on a scale of 0 to
{max_points}..."""`); constant boilerplate abbreviated. -/
def buildGradingPrompt (q : WrittenQ) (user_answer : String) (maxPts : ℚ) : String :=
  "Grade this written answer on a scale of 0 to " ++ toString maxPts
    ++ ". Question: " ++ q.question
    ++ " Student Answer: " ++ user_answer
    ++ " Sample Answer/Key Points: " ++ q.sample_answer.getD ""
    ++ " Format your response as JSON."

/-- The `except (json.JSONDecodeError, ValueError)` branch of
`grade_written_exam`'s per-question grading: the length-based fallback on
`len(user_answer.strip())`. -/
def lengthFallback (user_answer : String) (maxPts : ℚ) : ℚ × String :=
  (if 100 ≤ (pyStrip user_answer).length then maxPts * (8/10)
   else if 50 ≤ (pyStrip user_answer).length then maxPts * (6/10)
   else if 20 ≤ (pyStrip user_answer).length then maxPts * (4/10)
   else maxPts * (2/10),
   "Answer received and graded based on length and effort.")

/-- The per-question body of `grade_written_exam`, returning the pair
(question_score, feedback).  `ai` is `ai_service.get_response` (total);
`jsonLoads` is the stdlib JSON parse of the extracted slice.  An answer
that strips to empty scores 0 with no AI call; a response whose JSON
cannot be extracted or parsed falls back to the length heuristic; a
parsed response is clamped into `[0, max_points]`. -/
def gradeOneWritten (ai : String → String)
    (jsonLoads : String → Except Unit GradingJson)
    (q : WrittenQ) (user_answer : String) : ℚ × String :=
  if pyStrip user_answer = "" then (0, "No answer provided.")
  else
    match extractJson (ai (buildGradingPrompt q user_answer (q.max_points.getD 10))) with
    | none => lengthFallback user_answer (q.max_points.getD 10)
    | some s =>
      match jsonLoads s with
      | Except.error _ => lengthFallback user_answer (q.max_points.getD 10)
      | Except.ok g =>
        (min (max (g.score.getD 0) 0) (q.max_points.getD 10),
         g.feedback.getD "AI grading completed")

/-- The grading summary `grade_written_exam` returns. -/
structure WrittenResults where
  score : ℚ
  max_score : ℚ
  percentage : ℚ
deriving DecidableEq, Repr

/-- `grade_written_exam` (aggregation; the per-question result rows carry
no information beyond `gradeOneWritten`'s output and are omitted). -/
def grade_written_exam (ai : String → String)
    (jsonLoads : String → Except Unit GradingJson)
    (questions : List WrittenQ) (answers : List AnsIn) : WrittenResults :=
  let amap := buildAnswerMap answers
  let per := questions.map (fun q => gradeOneWritten ai jsonLoads q ((dfind amap q.id).getD ""))
  let total := (per.map (·.1)).sum
  let maxScore := (questions.map (fun q => q.max_points.getD 10)).sum
  ⟨pyRound2 total, maxScore,
   pyRound2 (if 0 < maxScore then (total / maxScore) * 100 else 0)⟩

/-! ## `main.py` — the in-memory `ExamStorage`

Here the stored exam dicts are modelled at the dictionary level, since
`update_exam` merges arbitrary key/value updates into them.  Values are
opaque except for strings (ids) and `None`; `user_exams` is keyed by
`exam_data.get('user_id')`, which is `None` when the key is absent. -/

/-- A Python value as `ExamStorage` stores it; non-string payloads
(numbers, nested dicts, lists) are opaque to the bookkeeping. -/
inductive PyVal where
  | vstr : String → PyVal
  | vnone : PyVal
  | vopaque : Nat → PyVal
deriving DecidableEq, Repr

/-- A Python dict with string keys. -/
abbrev PyDict := List (String × PyVal)

/-- The key type of `user_exams`: `exam_data.get('user_id')`. -/
abbrev UserKey := Option PyVal

/-- `self.user_exams.get(k)`. -/
def ulookup : List (UserKey × List String) → UserKey → Option (List String)
  | [], _ => none
  | e :: rest, k => if e.1 = k then some e.2 else ulookup rest k

/-- `if k not in self.user_exams: self.user_exams[k] = []` followed by
`self.user_exams[k].append(eid)`. -/
def uappend : List (UserKey × List String) → UserKey → String → List (UserKey × List String)
  | [], k, eid => [(k, [eid])]
  | e :: rest, k, eid =>
    if e.1 = k then (e.1, e.2 ++ [eid]) :: rest else e :: uappend rest k eid

/-- The `ExamStorage` state: `exams` and `user_exams`. -/
structure UStorage where
  exams : List (String × PyDict)
  user_exams : List (UserKey × List String)
deriving DecidableEq, Repr

/-- The dict `create_exam` stores: the caller's `exam_data` with
`exam_id`, `created_at` and `status` written into it. -/
def createdDict (data : PyDict) (examId t : String) : PyDict :=
  dinsert (dinsert (dinsert data "exam_id" (PyVal.vstr examId))
    "created_at" (PyVal.vstr t)) "status" (PyVal.vstr "in_progress")

/-- The `user_exams` key a creation files the new exam under:
`exam_data.get('user_id')` read after the in-place stamping. -/
def creationUserKey (data : PyDict) (examId t : String) : UserKey :=
  dfind (createdDict data examId t) "user_id"

/-- `ExamStorage.create_exam` (`examId` stands for the fresh `uuid4()`,
`t` for `datetime.now().isoformat()`). -/
def create_exam (s : UStorage) (examId : String) (data : PyDict) (t : String) :
    UStorage × String :=
  let d := createdDict data examId t
  (⟨dinsert s.exams examId d, uappend s.user_exams (dfind d "user_id") examId⟩,
   examId)

/-- `ExamStorage.get_exam`. -/
def get_exam (s : UStorage) (examId : String) : Option PyDict :=
  dfind s.exams examId

/-- `ExamStorage.update_exam`: merge `updates` and stamp `updated_at` when
the id is known, report `False` and touch nothing otherwise. -/
def update_exam (s : UStorage) (examId : String) (updates : PyDict) (t : String) :
    Bool × UStorage :=
  match dfind s.exams examId with
  | some e =>
    let e' := dinsert (dupdate e updates) "updated_at" (PyVal.vstr t)
    (true, { s with exams := dinsert s.exams examId e' })
  | none => (false, s)

/-- `ExamStorage.get_user_exams`: ids from the user's list, filtered to
those still present in `exams` and dereferenced. -/
def get_user_exams (s : UStorage) (userId : String) : List PyDict :=
  ((ulookup s.user_exams (some (PyVal.vstr userId))).getD []).filterMap
    (fun eid => dfind s.exams eid)

/-- One `ExamStorage` mutation. -/
inductive StOp where
  | create (examId : String) (data : PyDict) (t : String)
  | update (examId : String) (updates : PyDict) (t : String)
deriving DecidableEq, Repr

/-- Apply one mutation to the store. -/
def applyOp (s : UStorage) : StOp → UStorage
  | .create examId data t => (create_exam s examId data t).1
  | .update examId updates t => (update_exam s examId updates t).2

/-- Run a sequence of mutations from the freshly constructed store. -/
def runOps (ops : List StOp) : UStorage :=
  ops.foldl applyOp ⟨[], []⟩

/-! ## Specification-side definitions

These phrase conditions the claims talk about; the theorems below relate
them to the handler translations above. -/

/-- The lookup rule the login claim describes: by email exactly when the
identifier contains `@`, by username otherwise. -/
def user_lookup (db : List DbUser) (username_or_email : String) : Option DbUser :=
  if pyInStr '@' username_or_email then get_user_by_email db username_or_email
  else get_user_by_username db username_or_email

/-- The AI grading response of `grade_written_exam` fails JSON extraction
or parsing for this question and answer. -/
def gradingParseFails (ai : String → String)
    (jsonLoads : String → Except Unit GradingJson)
    (q : WrittenQ) (user_answer : String) : Prop :=
  extractJson (ai (buildGradingPrompt q user_answer (q.max_points.getD 10))) = none ∨
  ∃ s, extractJson (ai (buildGradingPrompt q user_answer (q.max_points.getD 10))) = some s ∧
    jsonLoads s = Except.error ()

/-- The AI exam-generation response of `generate_exam` fails JSON
extraction or parsing. -/
def examParseFails (ai : String → String)
    (jsonLoads : String → Except Unit (Option (List GenQ)))
    (req : ExamGenRequest) : Prop :=
  extractJson (ai (buildExamPrompt req)) = none ∨
  ∃ s, extractJson (ai (buildExamPrompt req)) = some s ∧
    jsonLoads s = Except.error ()

/-- The exam record `generate_exam` stores when it falls back to the
placeholder questions (before `create_exam` stamps it). -/
def fallbackRecord (req : ExamGenRequest) : ExamRecord :=
  { user_id := req.user_id, chat_id := req.chat_id, title := req.title
    subject := req.subject, exam_type := req.exam_type
    questions := placeholderQuestions req, user_answers := []
    max_score := genMaxScore req (placeholderQuestions req)
    status := "in_progress", exam_id := "", created_at := "" }

/-! ## Helper lemmas -/

theorem strData_append (s t : String) : (s ++ t).data = s.data ++ t.data := by
  cases s; cases t; rfl

/-! ## Claims about the password pair (C8) -/

/-- C8: for every key-derivation function the library might use, every
salt it might draw and every password, `verify_password` accepts
`hash_password`'s output (the pair round-trips); and `verify_password` is
the deterministic recomputation `kdf(stored salt, password) == stored
digest` of its two arguments alone. -/
theorem password_roundtrip :
    ∀ (kdf : Nat → String → String) (salt : Nat) (password : String),
      verify_passwordK kdf password (hash_passwordK kdf salt password) = true ∧
      ∀ (h : BcryptHash),
        verify_passwordK kdf password h = (kdf h.salt password == h.digest) := by
  intro kdf salt password
  refine ⟨?_, fun h => rfl⟩
  simp [verify_passwordK, hash_passwordK]

/-! ## Claims about answer-evaluation dispatch (C2) -/

/-- C2 counterexample: with an LLM oracle that always fails, evaluating an
MCQ answer still succeeds, with the locally computed comparison result —
so the MCQ result is not produced by a call to the generative-AI endpoint,
refuting "for every question type … no local scoring path". -/
theorem evaluate_answer_mcq_not_delegated :
    evaluate_answer (fun _ => Except.error "llm unavailable")
        (fun _ => Except.error "no parse") QuestionType.mcq "Q" "A" "a" =
      Except.ok (evaluate_mcq_answer "A" "a") ∧
    evaluate_answer (fun _ => Except.error "llm unavailable")
        (fun _ => Except.error "no parse") QuestionType.mcq "Q" "A" "a" ≠
      Except.error "Answer evaluation failed: llm unavailable" := by
  refine ⟨rfl, ?_⟩
  intro h
  simp [evaluate_answer] at h

/-- C2 amended: `evaluate_answer` delegates scoring of short and long
answers to the external LLM through a single prompt-building call, but
MCQ answers are scored locally by case-insensitive comparison; the MCQ
result is independent of the LLM and parser oracles. -/
theorem evaluate_answer_dispatch :
    ∀ (llm llm2 : String → Except String String)
      (pe pe2 : String → Except String EvalOutcome) (q c u : String),
      evaluate_answer llm pe QuestionType.mcq q c u =
        Except.ok (evaluate_mcq_answer c u) ∧
      evaluate_answer llm pe QuestionType.mcq q c u =
        evaluate_answer llm2 pe2 QuestionType.mcq q c u ∧
      evaluate_answer llm pe QuestionType.short q c u =
        (match llm (build_evaluation_prompt q c u QuestionType.short) with
         | Except.error e => Except.error ("Answer evaluation failed: " ++ e)
         | Except.ok resp =>
           match pe resp with
           | Except.error e => Except.error ("Answer evaluation failed: " ++ e)
           | Except.ok ev => Except.ok ev) ∧
      evaluate_answer llm pe QuestionType.long q c u =
        (match llm (build_evaluation_prompt q c u QuestionType.long) with
         | Except.error e => Except.error ("Answer evaluation failed: " ++ e)
         | Except.ok resp =>
           match pe resp with
           | Except.error e => Except.error ("Answer evaluation failed: " ++ e)
           | Except.ok ev => Except.ok ev) := by
  intro llm llm2 pe pe2 q c u
  exact ⟨rfl, rfl, rfl, rfl⟩

/-! ## Claims about per-handler 500s (C3) -/

/-- C3 counterexample: when the external `create_user` call fails with the
message `"duplicate key"`, the `signup` handler re-raises HTTP 500 whose
detail is the fixed string `"Failed to create user account"`, which does
not contain the caught exception's message — refuting "uniformly, in
every handler". -/
theorem signup_500_fixed_detail :
    signup false false (Except.error "duplicate key") =
      Except.error ⟨500, "Failed to create user account"⟩ ∧
    ¬ ("duplicate key".data <:+: "Failed to create user account".data) := by
  exact ⟨rfl, by decide⟩

/-- C3 amended: unexpected exceptions are caught per-handler and re-raised
as HTTP 500; the evaluation handler and the ultra-simple exam-generation
handler embed the exception's message in the detail string, but the auth
signup handler uses a fixed detail string that discards it. -/
theorem handler_500_details :
    ∀ msg : String,
      evaluate_single_answer true (Except.error msg) =
        Except.error (evalAnswer500 msg) ∧
      msg.data <:+: (evalAnswer500 msg).detail.data ∧
      (evalAnswer500 msg).status = 500 ∧
      msg.data <:+: (examGen500 msg).detail.data ∧
      (examGen500 msg).status = 500 ∧
      signup false false (Except.error msg) =
        Except.error ⟨500, "Failed to create user account"⟩ := by
  intro msg
  refine ⟨rfl, ⟨"Failed to evaluate answer: ".data, [], ?_⟩, rfl,
    ⟨"Exam generation failed: ".data, [], ?_⟩, rfl, rfl⟩
  · show "Failed to evaluate answer: ".data ++ msg.data ++ [] =
      ("Failed to evaluate answer: " ++ msg).data
    rw [strData_append, List.append_nil]
  · show "Exam generation failed: ".data ++ msg.data ++ [] =
      ("Exam generation failed: " ++ msg).data
    rw [strData_append, List.append_nil]

/-! ## Claims about token verification (C1) -/

/-- C1: `verify_token` returns the decoded payload exactly when the
signature validates, the payload's `type` equals the requested type, and
its `exp` is present and not in the past; every failing outcome is an
HTTP 401. -/
theorem verify_token_characterization :
    ∀ (secret : String) (now : Nat) (rt : String) (tok : SignedToken),
      ((∃ p, verify_token secret now rt tok = Except.ok p) ↔
        (tok.signedWith = secret ∧ tok.payload.type = some rt ∧
          ∃ e, tok.payload.exp = some e ∧ now ≤ e)) ∧
      (∀ p, verify_token secret now rt tok = Except.ok p → p = tok.payload) ∧
      (∀ err, verify_token secret now rt tok = Except.error err → err.status = 401) := by
  intro secret now rt tok
  unfold verify_token joseDecode
  by_cases hs : tok.signedWith = secret
  · cases he : tok.payload.exp with
    | none =>
      by_cases ht : tok.payload.type = some rt <;> simp [hs, he, ht]
    | some e =>
      by_cases hlt : e < now
      · simp [hs, he, hlt]
      · by_cases ht : tok.payload.type = some rt
        · have hle : now ≤ e := Nat.le_of_not_lt hlt
          simp [hs, he, hlt, ht, Nat.not_lt.mpr hle, hle]
        · simp [hs, he, hlt, ht]
  · simp [hs]

/-- C1 witness: a well-formed access token is returned at `now = 5` with
expiry `9`, and a type mismatch yields a 401. -/
theorem verify_token_characterization_witness :
    (⟨some "u", some "access", some 9⟩ : JwtPayload) =
      (⟨⟨some "u", some "access", some 9⟩, "k"⟩ : SignedToken).payload ∧
    (⟨401, "Invalid token type"⟩ : HErr).status = 401 :=
  ⟨(verify_token_characterization "k" 5 "access"
      ⟨⟨some "u", some "access", some 9⟩, "k"⟩).2.1 _ rfl,
   (verify_token_characterization "k" 5 "refresh"
      ⟨⟨some "u", some "access", some 9⟩, "k"⟩).2.2 _ rfl⟩

/-! ## Claims about the login handler (C6) -/

/-- C6: the login lookup is by email exactly when the identifier contains
`@` and by username otherwise (`user_lookup`); tokens are issued exactly
when such a user exists, the password verifies against the stored hash and
the user is active, and every other outcome is an HTTP 401 with no
tokens. -/
theorem login_characterization :
    ∀ (db : List DbUser) (ue pw secret : String) (now em ed : Nat),
      ((∃ toks, login db ue pw secret now em ed = Except.ok toks) ↔
        (∃ u, user_lookup db ue = some u ∧
          verify_password pw u.hashed_password = true ∧ u.is_active = true)) ∧
      (∀ u, user_lookup db ue = some u → verify_password pw u.hashed_password = true →
        u.is_active = true →
        login db ue pw secret now em ed =
          Except.ok ⟨create_access_token secret now em u.id,
                     create_refresh_token secret now ed u.id⟩) ∧
      (∀ err, login db ue pw secret now em ed = Except.error err →
        err.status = 401) := by
  intro db ue pw secret now em ed
  have hL : ∀ r, user_lookup db ue = r →
      login db ue pw secret now em ed =
        (match r with
         | none => Except.error ⟨401, "Incorrect username/email or password"⟩
         | some u =>
           if verify_password pw u.hashed_password then
             if u.is_active then
               Except.ok ⟨create_access_token secret now em u.id,
                          create_refresh_token secret now ed u.id⟩
             else Except.error ⟨401, "Account is deactivated"⟩
           else Except.error ⟨401, "Incorrect username/email or password"⟩) := by
    intro r hr
    rw [← hr]
    rfl
  cases hu : user_lookup db ue with
  | none =>
    have hval := hL none hu
    refine ⟨⟨fun ⟨toks, h⟩ => ?_, fun ⟨u, h, _⟩ => Option.noConfusion h⟩,
      fun u h => Option.noConfusion h, fun err h => ?_⟩
    · rw [hval] at h
      exact Except.noConfusion h
    · rw [hval] at h
      injection h with h2
      rw [← h2]
  | some u =>
    by_cases hv : verify_password pw u.hashed_password = true
    · by_cases ha : u.is_active = true
      · have hval : login db ue pw secret now em ed =
            Except.ok ⟨create_access_token secret now em u.id,
                       create_refresh_token secret now ed u.id⟩ := by
          rw [hL (some u) hu]
          simp [hv, ha]
        refine ⟨⟨fun _ => ⟨u, rfl, hv, ha⟩, fun _ => ⟨_, hval⟩⟩, ?_, ?_⟩
        · intro u' h hv2 ha2
          injection h with h2
          subst h2
          exact hval
        · intro err h
          rw [hval] at h
          exact Except.noConfusion h
      · have ha' : u.is_active = false := by
          cases hb : u.is_active
          · rfl
          · exact absurd hb ha
        have hval : login db ue pw secret now em ed =
            Except.error ⟨401, "Account is deactivated"⟩ := by
          rw [hL (some u) hu]
          simp [hv, ha']
        refine ⟨⟨fun ⟨toks, h⟩ => ?_, fun ⟨u', h, _, ha2⟩ => ?_⟩, ?_, ?_⟩
        · rw [hval] at h
          exact Except.noConfusion h
        · injection h with h2
          subst h2
          exact Bool.noConfusion (ha'.symm.trans ha2)
        · intro u' h hv2 ha2
          injection h with h2
          subst h2
          exact Bool.noConfusion (ha'.symm.trans ha2)
        · intro err h
          rw [hval] at h
          injection h with h2
          rw [← h2]
    · have hv' : verify_password pw u.hashed_password = false := by
        cases hb : verify_password pw u.hashed_password
        · rfl
        · exact absurd hb hv
      have hval : login db ue pw secret now em ed =
          Except.error ⟨401, "Incorrect username/email or password"⟩ := by
        rw [hL (some u) hu]
        simp [hv']
      refine ⟨⟨fun ⟨toks, h⟩ => ?_, fun ⟨u', h, hv2, _⟩ => ?_⟩, ?_, ?_⟩
      · rw [hval] at h
        exact Except.noConfusion h
      · injection h with h2
        subst h2
        exact Bool.noConfusion (hv'.symm.trans hv2)
      · intro u' h hv2 ha2
        injection h with h2
        subst h2
        exact Bool.noConfusion (hv'.symm.trans hv2)
      · intro err h
        rw [hval] at h
        injection h with h2
        rw [← h2]

/-- C6 witness: with one active user whose email contains `@`, logging in
by email with the right password returns the token pair. -/
theorem login_characterization_witness :
    login [⟨"id1", "a@b.c", "alice", hash_password 7 "pw", true⟩]
        "a@b.c" "pw" "k" 100 30 7 =
      Except.ok ⟨create_access_token "k" 100 30 "id1",
                 create_refresh_token "k" 100 7 "id1"⟩ :=
  (login_characterization [⟨"id1", "a@b.c", "alice", hash_password 7 "pw", true⟩]
      "a@b.c" "pw" "k" 100 30 7).2.1
    ⟨"id1", "a@b.c", "alice", hash_password 7 "pw", true⟩ (by decide) (by decide) rfl

/-! ## Claims about the change-password handler (C7) -/

/-- C7: `change_password` leaves the users table unchanged and returns
HTTP 400 whenever the supplied current password fails verification against
the stored hash; the table changes only when verification succeeded, and
then by rehashing the new password. -/
theorem change_password_guard :
    ∀ (db : List DbUser) (uid cur new : String) (salt : Nat),
      (∀ u, get_user_by_id db uid = some u →
        verify_password cur u.hashed_password = false →
        change_password db uid cur new salt =
          (Except.error ⟨400, "Current password is incorrect"⟩, db)) ∧
      ((change_password db uid cur new salt).2 ≠ db →
        ∃ u, get_user_by_id db uid = some u ∧
          verify_password cur u.hashed_password = true ∧
          (change_password db uid cur new salt).2 =
            update_user_password db uid (hash_password salt new)) := by
  intro db uid cur new salt
  have hC : ∀ r, get_user_by_id db uid = r →
      change_password db uid cur new salt =
        (match r with
         | none => (Except.error ⟨404, "User not found"⟩, db)
         | some u =>
           if verify_password cur u.hashed_password then
             (Except.ok (), update_user_password db uid (hash_password salt new))
           else (Except.error ⟨400, "Current password is incorrect"⟩, db)) := by
    intro r hr
    rw [← hr]
    rfl
  cases hu : get_user_by_id db uid with
  | none =>
    refine ⟨fun u h _ => Option.noConfusion h, fun hne => ?_⟩
    rw [hC none hu] at hne
    exact absurd rfl hne
  | some u =>
    by_cases hv : verify_password cur u.hashed_password = true
    · have hval : change_password db uid cur new salt =
          (Except.ok (), update_user_password db uid (hash_password salt new)) := by
        rw [hC (some u) hu]
        simp [hv]
      refine ⟨?_, fun _ => ⟨u, rfl, hv, by rw [hval]⟩⟩
      intro u' h hv2
      injection h with h2
      subst h2
      exact Bool.noConfusion (hv2.symm.trans hv)
    · have hv' : verify_password cur u.hashed_password = false := by
        cases hb : verify_password cur u.hashed_password
        · rfl
        · exact absurd hb hv
      have hval : change_password db uid cur new salt =
          (Except.error ⟨400, "Current password is incorrect"⟩, db) := by
        rw [hC (some u) hu]
        simp [hv']
      refine ⟨fun u' h hv2 => hval, fun hne => ?_⟩
      rw [hval] at hne
      exact absurd rfl hne

/-- C7 witness: a wrong current password yields a 400 and the unchanged
table. -/
theorem change_password_guard_witness :
    change_password [⟨"id1", "a@b.c", "alice", hash_password 7 "pw", true⟩]
        "id1" "wrong" "new" 9 =
      (Except.error ⟨400, "Current password is incorrect"⟩,
       [⟨"id1", "a@b.c", "alice", hash_password 7 "pw", true⟩]) :=
  (change_password_guard [⟨"id1", "a@b.c", "alice", hash_password 7 "pw", true⟩]
      "id1" "wrong" "new" 9).1
    ⟨"id1", "a@b.c", "alice", hash_password 7 "pw", true⟩ (by decide) (by decide)

/-! ## Claims about the written-grading fallback (C4) -/

/-- C4: in written-exam grading, an answer that is empty after stripping
scores 0 with no AI call (the result is the same for every AI and parser
oracle); and when the AI grading response cannot be parsed as JSON, the
score of a non-empty answer is determined solely by the length of the
stripped answer: 0.8/0.6/0.4/0.2 of `max_points` at the 100/50/20
thresholds. -/
theorem grade_written_fallback_spec :
    ∀ (ai : String → String) (jsonLoads : String → Except Unit GradingJson)
      (q : WrittenQ) (a : String),
      (pyStrip a = "" → ∀ (ai2 : String → String)
        (jl2 : String → Except Unit GradingJson),
        gradeOneWritten ai2 jl2 q a = (0, "No answer provided.")) ∧
      (pyStrip a ≠ "" → gradingParseFails ai jsonLoads q a →
        (gradeOneWritten ai jsonLoads q a).1 =
          (if 100 ≤ (pyStrip a).length then (q.max_points.getD 10) * (8/10)
           else if 50 ≤ (pyStrip a).length then (q.max_points.getD 10) * (6/10)
           else if 20 ≤ (pyStrip a).length then (q.max_points.getD 10) * (4/10)
           else (q.max_points.getD 10) * (2/10))) := by
  intro ai jsonLoads q a
  constructor
  · intro h ai2 jl2
    unfold gradeOneWritten
    rw [if_pos h]
  · intro h hf
    unfold gradeOneWritten
    rw [if_neg h]
    rcases hf with hx | ⟨s, hx, hj⟩
    · rw [hx]
      rfl
    · rw [hx]
      show ((match jsonLoads s with
        | Except.error _ => lengthFallback a (q.max_points.getD 10)
        | Except.ok g =>
          (min (max (g.score.getD 0) 0) (q.max_points.getD 10),
           g.feedback.getD "AI grading completed") : ℚ × String)).1 = _
      rw [hj]
      rfl

/-- C4 witness: with an AI response containing no JSON, a 25-character
answer to a default-max-points question scores `0.4 * 10 = 4`. -/
theorem grade_written_fallback_witness :
    (gradeOneWritten (fun _ => "no json here") (fun _ => Except.error ())
        { id := "q1", question := "Explain." } "abcdefghijklmnopqrstuvwxy").1 = 4 := by
  rw [(grade_written_fallback_spec (fun _ => "no json here") (fun _ => Except.error ())
      { id := "q1", question := "Explain." } "abcdefghijklmnopqrstuvwxy").2
    (by decide) (Or.inl (by decide))]
  norm_num [show (pyStrip "abcdefghijklmnopqrstuvwxy").length = 25 from by decide]

/-! ## Claims about MCQ grading (C9) -/

/-- The score accumulated by `grade_mcq_exam`'s loop is the match count. -/
theorem mcqFold_score (amap : List (String × String)) :
    ∀ (qs : List McqQ) (p : Nat × List QRes),
      (qs.foldl (mcqStep amap) p).1 = p.1 + qs.countP (mcqIsCorrect amap) := by
  intro qs
  induction qs with
  | nil => intro p; simp
  | cons q rest ih =>
    intro p
    rw [List.foldl_cons, ih, List.countP_cons]
    unfold mcqStep
    cases h : mcqIsCorrect amap q <;> simp [h]
    all_goals omega

/-- C9 counterexample: on a three-question exam with one matching answer,
the returned percentage is the rounded `33.33`, not the exact
`(1/3) * 100` the claim demands. -/
theorem grade_mcq_percentage_not_exact :
    (grade_mcq_exam [⟨"q1", "Q1", "A", none⟩, ⟨"q2", "Q2", "B", none⟩,
        ⟨"q3", "Q3", "C", none⟩] [⟨"q1", "a"⟩]).percentage = 3333/100 ∧
    (grade_mcq_exam [⟨"q1", "Q1", "A", none⟩, ⟨"q2", "Q2", "B", none⟩,
        ⟨"q3", "Q3", "C", none⟩] [⟨"q1", "a"⟩]).score = 1 ∧
    (3333/100 : ℚ) ≠ ((1 : ℚ) / 3) * 100 := by
  refine ⟨?_, rfl, by norm_num⟩
  have h1 : (grade_mcq_exam [⟨"q1", "Q1", "A", none⟩, ⟨"q2", "Q2", "B", none⟩,
      ⟨"q3", "Q3", "C", none⟩] [⟨"q1", "a"⟩]).percentage =
        pyRound2 (((1 : ℕ) : ℚ) / ((3 : ℕ) : ℚ) * 100) := rfl
  rw [h1]
  have h2 : ((1 : ℕ) : ℚ) / ((3 : ℕ) : ℚ) * 100 * 100 = 10000/3 := by norm_num
  unfold pyRound2 roundHalfEven ratFloor
  rw [h2]
  have hnum : ((10000 : ℚ)/3).num = 10000 := by norm_num
  have hden : ((10000 : ℚ)/3).den = 3 := by norm_num
  rw [hnum, hden]
  norm_num [show Int.fdiv (10000 : ℤ) (3 : ℤ) = 3333 from by decide,
    show Int.fdiv (10000 : ℤ) ((3 : ℕ) : ℤ) = 3333 from by decide]

/-- C9 amended: `grade_mcq_exam` returns the number of case-insensitive
matches (a missing submission compares as `""`), the question count as
`max_score`, and `score/max_score*100` rounded to two decimals (0 for an
empty exam); `score ≤ max_score` always holds. -/
theorem grade_mcq_spec :
    ∀ (qs : List McqQ) (answers : List AnsIn),
      (grade_mcq_exam qs answers).score =
        qs.countP (mcqIsCorrect (buildAnswerMap answers)) ∧
      (grade_mcq_exam qs answers).max_score = qs.length ∧
      (grade_mcq_exam qs answers).percentage =
        (if 0 < qs.length then
          pyRound2 (((qs.countP (mcqIsCorrect (buildAnswerMap answers)) : ℚ) /
            (qs.length : ℚ)) * 100)
         else 0) ∧
      (grade_mcq_exam qs answers).score ≤ (grade_mcq_exam qs answers).max_score := by
  intro qs answers
  have hs := mcqFold_score (buildAnswerMap answers) qs (0, [])
  simp only [Nat.zero_add] at hs
  have hz : pyRound2 0 = 0 := by
    norm_num [pyRound2, roundHalfEven, ratFloor, Rat.num_ofNat, Rat.den_ofNat]
  refine ⟨?_, rfl, ?_, ?_⟩
  · simpa only [grade_mcq_exam] using hs
  · simp only [grade_mcq_exam]
    rw [hs]
    by_cases hl : 0 < qs.length
    · rw [if_pos hl, if_pos hl]
    · rw [if_neg hl, if_neg hl]
      exact hz
  · simp only [grade_mcq_exam]
    rw [hs]
    exact List.countP_le_length _

/-! ## Claims about the exam-generation fallback (C5) -/

/-- C5 counterexample: a request for `-1` questions whose AI response
fails to parse yields a placeholder exam with `0` questions, not
`request.num_questions` of them (Python's `range` of a negative count is
empty). -/
theorem generate_exam_negative_count :
    (generate_exam ⟨[], []⟩ "id1" "t1"
        { user_id := "u1", title := "T", subject := "Math", exam_type := "mcq",
          num_questions := -1 }
        (fun _ => "junk") (fun _ => Except.error ())).map
      (fun p => (p.2.total_questions : Int)) = Except.ok 0 ∧
    (0 : Int) ≠
      ({ user_id := "u1", title := "T", subject := "Math", exam_type := "mcq",
         num_questions := -1 } : ExamGenRequest).num_questions := by
  exact ⟨rfl, by decide⟩

/-- C5 amended: whenever JSON extraction or parsing of the AI response
fails, `generate_exam` for a valid exam type returns success: it stores,
and returns with `success = true`, the hard-coded placeholder exam, which
contains `max(request.num_questions, 0)` questions. -/
theorem generate_exam_parse_fallback :
    ∀ (store : GStore) (newId t : String) (req : ExamGenRequest)
      (ai : String → String)
      (jsonLoads : String → Except Unit (Option (List GenQ))),
      req.exam_type = "mcq" ∨ req.exam_type = "written" →
      examParseFails ai jsonLoads req →
      generate_exam store newId t req ai jsonLoads =
        Except.ok ((gsCreateExam store newId t (fallbackRecord req)).1,
          { exam_id := newId, title := req.title, subject := req.subject
            exam_type := req.exam_type, questions := placeholderQuestions req
            total_questions := (placeholderQuestions req).length
            max_score := genMaxScore req (placeholderQuestions req)
            success := true }) ∧
      ((placeholderQuestions req).length : Int) = max req.num_questions 0 := by
  intro store newId t req ai jsonLoads hty hf
  have hty' : ¬ (req.exam_type ≠ "mcq" ∧ req.exam_type ≠ "written") := by
    rcases hty with h | h <;> simp [h]
  have hq : genQuestionsE ai jsonLoads req = Except.ok (placeholderQuestions req) := by
    unfold genQuestionsE
    rcases hf with hx | ⟨s, hx, hj⟩
    · rw [hx]
    · rw [hx]
      show ((match jsonLoads s with
        | Except.error _ => Except.ok (placeholderQuestions req)
        | Except.ok none => Except.error (examGen500 "KeyError: questions")
        | Except.ok (some qs) => Except.ok qs : Except HErr (List GenQ))) = _
      rw [hj]
  constructor
  · unfold generate_exam
    rw [if_neg hty', hq]
    rfl
  · have hlen : (placeholderQuestions req).length = req.num_questions.toNat := by
      unfold placeholderQuestions mcqPlaceholder writtenPlaceholder
      by_cases h : req.exam_type = "mcq" <;> simp [h]
    rw [hlen]
    exact Int.toNat_eq_max req.num_questions

/-- C5 witness: an unparseable AI response for a two-question MCQ request
yields the stored two-question placeholder exam as a success. -/
theorem generate_exam_parse_fallback_witness :
    generate_exam ⟨[], []⟩ "id1" "t1"
        { user_id := "u1", title := "T", subject := "Math", exam_type := "mcq", num_questions := 2 }
        (fun _ => "junk") (fun _ => Except.error ()) =
      Except.ok ((gsCreateExam ⟨[], []⟩ "id1" "t1"
          (fallbackRecord { user_id := "u1", title := "T", subject := "Math", exam_type := "mcq", num_questions := 2 })).1,
        { exam_id := "id1", title := "T", subject := "Math",
          exam_type := "mcq",
          questions := placeholderQuestions { user_id := "u1", title := "T", subject := "Math", exam_type := "mcq", num_questions := 2 },
          total_questions := (placeholderQuestions { user_id := "u1", title := "T", subject := "Math", exam_type := "mcq", num_questions := 2 }).length,
          max_score := genMaxScore
            { user_id := "u1", title := "T", subject := "Math", exam_type := "mcq", num_questions := 2 }
            (placeholderQuestions { user_id := "u1", title := "T", subject := "Math", exam_type := "mcq", num_questions := 2 }),
          success := true }) ∧
    ((placeholderQuestions { user_id := "u1", title := "T", subject := "Math", exam_type := "mcq", num_questions := 2 }).length : Int) = max 2 0 :=
  generate_exam_parse_fallback ⟨[], []⟩ "id1" "t1"
    { user_id := "u1", title := "T", subject := "Math", exam_type := "mcq", num_questions := 2 }
    (fun _ => "junk") (fun _ => Except.error ()) (Or.inl rfl) (Or.inl (by decide))

/-! ## Claims about the `ExamStorage` invariant (C10) -/

/-- How `uappend` changes lookups: the appended key gains `eid` at the end
of its (possibly fresh) list, every other key is untouched. -/
theorem ulookup_uappend (l : List (UserKey × List String)) (k₀ k : UserKey)
    (eid : String) :
    ulookup (uappend l k₀ eid) k =
      if k = k₀ then some ((ulookup l k₀).getD [] ++ [eid]) else ulookup l k := by
  induction l with
  | nil =>
    by_cases h : k = k₀
    · subst h
      simp [uappend, ulookup]
    · simp [uappend, ulookup, h, show ¬(k₀ = k) from fun hh => h hh.symm]
  | cons e rest ih =>
    by_cases he : e.1 = k₀
    · by_cases hk : k = k₀
      · subst hk
        simp [uappend, ulookup, he]
      · have hek : ¬(e.1 = k) := fun hh => hk (hh.symm.trans he)
        simp [uappend, ulookup, he, hk, hek,
          show ¬(k₀ = k) from fun hh => hk hh.symm]
    · by_cases hek : e.1 = k
      · have hk : ¬(k = k₀) := fun hh => he (hek.trans hh)
        simp [uappend, ulookup, he, hk, hek]
      · by_cases hk : k = k₀
        · subst hk
          simp [uappend, ulookup, he, hek, ih]
        · simp [uappend, ulookup, he, hek, hk, ih]

/-- `update_exam` never touches the `user_exams` index. -/
theorem update_exam_user_exams (s : UStorage) (examId : String) (upd : PyDict)
    (t : String) : ((update_exam s examId upd t).2).user_exams = s.user_exams := by
  unfold update_exam
  cases h : dfind s.exams examId <;> rfl

/-- Unfolding one trailing operation of a trace. -/
theorem runOps_append_one (ops : List StOp) (op : StOp) :
    runOps (ops ++ [op]) = applyOp (runOps ops) op := by
  unfold runOps
  rw [List.foldl_append]
  rfl

/-- Every id in a user's index list was put there by a creation whose
stamped `user_id` was that user's key. -/
theorem userListSound :
    ∀ (ops : List StOp) (k : UserKey) (eid : String) (ids : List String),
      ulookup (runOps ops).user_exams k = some ids → eid ∈ ids →
      ∃ d t, StOp.create eid d t ∈ ops ∧ creationUserKey d eid t = k := by
  intro ops
  induction ops using List.reverseRecOn with
  | nil =>
    intro k eid ids h hm
    exact Option.noConfusion h
  | append_singleton ops op ih =>
    intro k eid ids h hm
    rw [runOps_append_one] at h
    cases op with
    | update examId upd t =>
      rw [show (applyOp (runOps ops) (StOp.update examId upd t)).user_exams =
        (runOps ops).user_exams from update_exam_user_exams (runOps ops) examId upd t] at h
      obtain ⟨d, t', hmem, hkey⟩ := ih k eid ids h hm
      exact ⟨d, t', List.mem_append_left _ hmem, hkey⟩
    | create examId data t =>
      have happ : (applyOp (runOps ops) (StOp.create examId data t)).user_exams =
          uappend (runOps ops).user_exams (creationUserKey data examId t) examId := rfl
      rw [happ, ulookup_uappend] at h
      by_cases hk : k = creationUserKey data examId t
      · rw [if_pos hk] at h
        injection h with h2
        subst h2
        rcases List.mem_append.mp hm with hin | hone
        · cases hl : ulookup (runOps ops).user_exams (creationUserKey data examId t) with
          | none =>
            rw [hl] at hin
            simp at hin
          | some ids₀ =>
            rw [hl] at hin
            obtain ⟨d', t', hmem, hkey⟩ := ih _ eid ids₀ hl (by simpa using hin)
            exact ⟨d', t', List.mem_append_left _ hmem, hkey.trans hk.symm⟩
        · have heq : eid = examId := by simpa using hone
          subst heq
          exact ⟨data, t, List.mem_append_right _ (by simp), hk.symm⟩
      · rw [if_neg hk] at h
        obtain ⟨d', t', hmem, hkey⟩ := ih k eid ids h hm
        exact ⟨d', t', List.mem_append_left _ hmem, hkey⟩

/-- C10: after any sequence of `create_exam`/`update_exam` operations,
every exam `get_user_exams u` returns is stored in `exams` under an id
that a creation stamped with user key `u` put in `u`'s index (so a
dangling id is filtered out, never dereferenced); and `update_exam` on an
unknown id reports `false` and leaves the whole store unchanged. -/
theorem exam_storage_invariant :
    ∀ (ops : List StOp) (u : String),
      (∀ e, e ∈ get_user_exams (runOps ops) u →
        ∃ eid, dfind (runOps ops).exams eid = some e ∧
          ∃ d t, StOp.create eid d t ∈ ops ∧
            creationUserKey d eid t = some (PyVal.vstr u)) ∧
      (∀ (s : UStorage) (eid : String) (upd : PyDict) (t : String),
        dfind s.exams eid = none → update_exam s eid upd t = (false, s)) := by
  intro ops u
  constructor
  · intro e he
    unfold get_user_exams at he
    rcases List.mem_filterMap.mp he with ⟨eid, hin, hfind⟩
    cases hl : ulookup (runOps ops).user_exams (some (PyVal.vstr u)) with
    | none =>
      rw [hl] at hin
      simp at hin
    | some ids =>
      rw [hl] at hin
      obtain ⟨d, t, hmem, hkey⟩ := userListSound ops _ eid ids hl (by simpa using hin)
      exact ⟨eid, hfind, d, t, hmem, hkey⟩
  · intro s eid upd t h
    unfold update_exam
    rw [h]

/-- C10 witness: a store with one created exam returns it for its creator,
and updating a missing id is a no-op returning `false`. -/
theorem exam_storage_invariant_witness :
    (∃ eid, dfind (runOps [StOp.create "e1" [("user_id", PyVal.vstr "u1")] "t1"]).exams
        eid = some (createdDict [("user_id", PyVal.vstr "u1")] "e1" "t1") ∧
      ∃ d t, StOp.create eid d t ∈ [StOp.create "e1" [("user_id", PyVal.vstr "u1")] "t1"] ∧
        creationUserKey d eid t = some (PyVal.vstr "u1")) ∧
    update_exam ⟨[], []⟩ "nope" [] "t" = (false, ⟨[], []⟩) :=
  ⟨(exam_storage_invariant [StOp.create "e1" [("user_id", PyVal.vstr "u1")] "t1"] "u1").1
      (createdDict [("user_id", PyVal.vstr "u1")] "e1" "t1") (by decide),
   (exam_storage_invariant [StOp.create "e1" [("user_id", PyVal.vstr "u1")] "t1"] "u1").2
      ⟨[], []⟩ "nope" [] "t" rfl⟩

end EduAI
